import Mathlib

/-
Verification of the cosmic-ray mutation-testing engine: the local distributor
(`cosmic_ray/distribution/local.py`) and the mutation operators
(`cosmic_ray/operators/no_op.py`, `zero_iteration_for_loop.py`,
`remove_decorator.py`, `variable_inserter.py`, `variable_replacer.py`).

The Python source is embedded shallowly: pure fragments become Lean functions,
the distributor's loop becomes a fold that returns the ordered trace of
`on_task_complete` invocations together with the exception (if any) that
aborted the loop, and Python exceptions (ValueError from `list.index`,
IndexError from out-of-range indexing, AssertionError from `assert`) become
`Option`/error values.

Code of the repository that the claims depend on but that is not part of the
sources (the `mutate_and_test` coroutine of `cosmic_ray.mutating` and the
test-executor it wraps) is modelled from the specification; each such
definition carries a doc comment starting with "Modelled from the spec".
-/

namespace CosmicRay

/-! ### Data model -/

/-- Identifier of one candidate mutation, per the spec's data model:
`{module_path, operator_name, occurrence_index, variant_index}`. -/
structure MutationDescriptor where
  module_path : String
  operator_name : String
  occurrence_index : Nat
  variant_index : Nat
deriving DecidableEq, Repr

/-- A unit of scheduled work, as consumed by `LocalDistributor._process`:
a unique `job_id` and the ordered mutations to apply together. -/
structure WorkItem where
  job_id : String
  mutations : List MutationDescriptor
deriving DecidableEq, Repr

/-- Terminal states of a WorkItem, per the spec's status enum
(PENDING and RUNNING are transient; the distributor trace only ever
carries terminal results). -/
inductive WorkItemStatus where
  | complete
  | timedOut
  | errored
deriving DecidableEq, Repr

/-- Result of running tests against a mutated artifact, per the spec's data
model: `{survived: bool, output: text, duration, exit_code}` (duration as a
natural number of time units in this model). -/
structure TestOutcome where
  survived : Bool
  output : String
  duration : Nat
  exit_code : Int
deriving DecidableEq, Repr

/-- The value delivered to `on_task_complete` for one WorkItem: the test
outcome together with the terminal state that was reached. -/
structure WorkResult where
  outcome : TestOutcome
  status : WorkItemStatus
deriving DecidableEq, Repr

/-! ### The test command tokenizer

`LocalDistributor._process` calls `shlex.split(test_command)`.  `shlex` is the
Python standard library; the commands the distributor receives are plain
whitespace-separated words (e.g. `"pytest -t 5"`), so it is modelled as
whitespace tokenization: maximal runs of non-space characters become tokens. -/

/-- Accumulator-passing splitter over the character list of the command:
`acc` holds the (reversed) characters of the token being read. -/
def shlexSplitAux : List Char → List Char → List String
  | [], [] => []
  | [], acc => [String.mk acc.reverse]
  | c :: cs, acc =>
    if c = ' ' then
      match acc with
      | [] => shlexSplitAux cs []
      | _ => String.mk acc.reverse :: shlexSplitAux cs []
    else shlexSplitAux cs (c :: acc)

/-- Model of Python `shlex.split` on quoting-free command strings. -/
def shlex_split (s : String) : List String := shlexSplitAux s.data []

/-- Model of Python `list.index`: the index of the first occurrence, `none`
where Python raises ValueError (element absent). -/
def list_index (l : List String) (x : String) : Option Nat :=
  l.findIdx? (fun t => t == x)

/-! ### The local distributor (`cosmic_ray/distribution/local.py`) -/

/-- The Python exceptions the loop body of `LocalDistributor._process` can
raise while parsing the test command. -/
inductive ProcError where
  /-- Python ValueError: `test_command_split.index('-t')` with no `-t` token. -/
  | valueError
  /-- Python IndexError: `test_command_split[n_tests_index]` past the end
  (the `-t` token is last). -/
  | indexError
deriving DecidableEq, Repr

/-- The per-job output argument the distributor appends to the test command:
Python `f" -o t{n_tests}/{work_item.job_id}.json"` (local.py line 36). -/
def outputArg (n_tests job_id : String) : String :=
  " -o t" ++ n_tests ++ "/" ++ job_id ++ ".json"

/-- Modelled from the spec: `cosmic_ray.mutating.mutate_and_test` is not among
the sources (only its caller `local.py` is).  The spec's propagation policy —
"per-WorkItem failures are always contained and recorded, never allowed to
abort the overall run" — makes it a total function from the WorkItem's
mutations, the rewritten test command and the timeout to a terminal
`WorkResult` (COMPLETE, TIMED_OUT or ERRORED); the theorems below quantify
over every such function. -/
abbrev MutateAndTest := List MutationDescriptor → String → Nat → WorkResult

/-- One iteration of the loop body of `LocalDistributor._process`
(local.py lines 31-40): split the test command, find the `-t` token
(ValueError if absent), read the token after it (IndexError if absent),
run `mutate_and_test` on the command with the per-job `-o` argument appended,
and produce the `on_task_complete` event `(job_id, result)`. -/
def processItem (mat : MutateAndTest) (test_command : String) (timeout : Nat)
    (work_item : WorkItem) : Except ProcError (String × WorkResult) :=
  let test_command_split := shlex_split test_command
  match list_index test_command_split "-t" with
  | none => .error .valueError
  | some i =>
    match test_command_split[i + 1]? with
    | none => .error .indexError
    | some n_tests =>
      .ok (work_item.job_id,
        mat work_item.mutations
          (test_command ++ outputArg n_tests work_item.job_id) timeout)

/-- The loop of `LocalDistributor._process`: WorkItems are handled strictly
one after the other, each `mutate_and_test` completing before the next item
starts.  The result is the ordered list of `on_task_complete` invocations
`(job_id, result)` made before the loop finished, together with the exception
(if any) that aborted it; an exception aborts the whole loop, so no further
events follow it. -/
def process (mat : MutateAndTest) (pending_work : List WorkItem)
    (test_command : String) (timeout : Nat) :
    List (String × WorkResult) × Option ProcError :=
  match pending_work with
  | [] => ([], none)
  | work_item :: rest =>
    match processItem mat test_command timeout work_item with
    | .error e => ([], some e)
    | .ok ev =>
      let r := process mat rest test_command timeout
      (ev :: r.1, r.2)

/-- The `-t` argument value the loop body extracts from the test command
(`n_tests` in local.py); `none` exactly when the loop body would raise. -/
def nTestsOf (test_command : String) : Option String :=
  match list_index (shlex_split test_command) "-t" with
  | none => none
  | some i => (shlex_split test_command)[i + 1]?

/-! ### Modelled executor (spec sections 4.2 step 4 and 4.3) -/

/-- One execution of the project's test suite, as the spec's opaque test
runner reports it: pass/fail, captured output, how long it ran, exit code. -/
structure TestRun where
  passed : Bool
  output : String
  duration : Nat
  exit_code : Int
deriving DecidableEq, Repr

/-- Modelled from the spec: the Test Executor (`cosmic_ray.testing`, not among
the sources).  "On normal completion: record TestOutcome with
survived = (tests passed)" and mark COMPLETE; "On timeout: record TestOutcome
with survived = true ... and mark TIMED_OUT". -/
def executeTest (run : TestRun) (timeout : Nat) : WorkResult :=
  if timeout < run.duration then
    { outcome := { survived := true, output := run.output,
                   duration := run.duration, exit_code := run.exit_code },
      status := .timedOut }
  else
    { outcome := { survived := run.passed, output := run.output,
                   duration := run.duration, exit_code := run.exit_code },
      status := .complete }

/-! ### Parse-tree nodes (the parso library, as the operators consume it) -/

/-- Shallow embedding of a parso tree node: a leaf carries its type tag, its
prefix (whitespace before the token, `pfx` here), its value, and its
(line, column) start/end positions; an inner node carries a type tag,
children and positions. -/
inductive PNode where
  | leaf (type : String) (pfx : String) (value : String)
      (start_pos end_pos : Nat × Nat)
  | node (type : String) (children : List PNode)
      (start_pos end_pos : Nat × Nat)
deriving Repr

/-- The parso `type` attribute. -/
def PNode.type : PNode → String
  | .leaf t _ _ _ _ => t
  | .node t _ _ _ => t

/-- The parso `start_pos` attribute. -/
def PNode.start_pos : PNode → Nat × Nat
  | .leaf _ _ _ s _ => s
  | .node _ _ s _ => s

/-- The parso `end_pos` attribute. -/
def PNode.end_pos : PNode → Nat × Nat
  | .leaf _ _ _ _ e => e
  | .node _ _ _ e => e

mutual

/-- The parso `get_code()` method: a leaf contributes its prefix followed by
its value, an inner node the concatenated code of its children. -/
def PNode.get_code : PNode → String
  | .leaf _ pfx v _ _ => pfx ++ v
  | .node _ cs _ _ => PNode.codeOfList cs

/-- Concatenated code of a list of sibling nodes. -/
def PNode.codeOfList : List PNode → String
  | [] => ""
  | c :: cs => c.get_code ++ PNode.codeOfList cs

end

/-! ### The NoOp operator (`cosmic_ray/operators/no_op.py`) -/

namespace NoOp

/-- Python `NoOp.mutation_positions`: yields the single pair
`(node.start_pos, node.end_pos)` for every node. -/
def mutation_positions (node : PNode) : List ((Nat × Nat) × (Nat × Nat)) :=
  [(node.start_pos, node.end_pos)]

/-- Python `NoOp.mutate`: returns the node unchanged. -/
def mutate (node : PNode) (index : Nat) : PNode := node

end NoOp

/-! ### The ZeroIterationForLoop operator
(`cosmic_ray/operators/zero_iteration_for_loop.py`) -/

namespace ZeroIterationForLoop

/-- The tree `parso.parse(" []")` produces: a module (file_input) node whose
code is the empty-list expression " []". -/
def empty_list : PNode :=
  .node "file_input"
    [.node "atom"
       [.leaf "operator" " " "[" (1, 1) (1, 2),
        .leaf "operator" "" "]" (1, 2) (1, 3)] (1, 1) (1, 3),
     .leaf "endmarker" "" "" (1, 3) (1, 3)]
    (1, 1) (1, 3)

/-- Python `ZeroIterationForLoop.mutation_positions`: for a ForStmt node,
yield the span of `children[3]` (the loop's iterable); `none` models the
IndexError were a for_stmt node to have fewer than 4 children (parso's
grammar produces at least 6); for any non-ForStmt node nothing is yielded. -/
def mutation_positions (node : PNode) :
    Option (List ((Nat × Nat) × (Nat × Nat))) :=
  match node with
  | .node "for_stmt" children _ _ =>
    match children[3]? with
    | some expr => some [(expr.start_pos, expr.end_pos)]
    | none => none
  | _ => some []

/-- Python `ZeroIterationForLoop.mutate`: asserts `index == 0` and that the
node is a ForStmt (`none` models the AssertionError, and the IndexError for
an absent `children[3]`), then assigns the parsed " []" tree to
`children[3]`. -/
def mutate (node : PNode) (index : Nat) : Option PNode :=
  if index = 0 then
    match node with
    | .node "for_stmt" children s e =>
      if 3 < children.length then
        some (.node "for_stmt" (children.set 3 empty_list) s e)
      else none
    | _ => none
  else none

end ZeroIterationForLoop

/-! ### The RemoveDecorator operator
(`cosmic_ray/operators/remove_decorator.py`, the ast-based operator) -/

/-- A decorator entry of an ast FunctionDef's `decorator_list`: a Name node
carrying the identifier the source reads as `x.id`. -/
structure DecoratorName where
  id : String
deriving DecidableEq, Repr

/-- The slice of an ast FunctionDef node that RemoveDecorator touches:
the function's name and its decorator list. -/
structure FunctionDef where
  name : String
  decorator_list : List DecoratorName
deriving DecidableEq, Repr

namespace RemoveDecorator

/-- The Python frozenset `regular_decorators`. -/
def regular_decorators : List String :=
  ["classmethod", "staticmethod", "abstractmethod"]

/-- Python `x.id in self.regular_decorators`. -/
def isRegular (x : DecoratorName) : Bool := regular_decorators.contains x.id

/-- Python `RemoveDecorator.mutate`: build `decorator_candidates` (the
decorators whose id is not a regular decorator), delete entry `idx` (`none`
models the IndexError `del` raises when `idx` is out of range), and rebuild
`decorator_list` as the remaining candidates followed by the regular
decorators. -/
def mutate (node : FunctionDef) (idx : Nat) : Option FunctionDef :=
  let decorator_candidates := node.decorator_list.filter (fun x => !(isRegular x))
  if idx < decorator_candidates.length then
    some { node with decorator_list :=
      decorator_candidates.eraseIdx idx ++
        node.decorator_list.filter (fun x => isRegular x) }
  else none

end RemoveDecorator

/-! ### The operator catalog's interface surface

Which of the spec's three interface methods — `mutation_positions`, `mutate`,
`examples` — each operator class body in the repository defines. -/

structure OperatorSig where
  name : String
  defines_mutation_positions : Bool
  defines_mutate : Bool
  defines_examples : Bool
deriving DecidableEq, Repr

/-- `no_op.py` class NoOp: defines `mutation_positions`, `mutate` and a
classmethod `examples`. -/
def noOpSig : OperatorSig := ⟨"NoOp", true, true, true⟩

/-- `zero_iteration_for_loop.py` class ZeroIterationForLoop: defines all
three interface methods. -/
def zeroIterationForLoopSig : OperatorSig := ⟨"ZeroIterationForLoop", true, true, true⟩

/-- `variable_inserter.py` class VariableInserter: defines all three
interface methods. -/
def variableInserterSig : OperatorSig := ⟨"VariableInserter", true, true, true⟩

/-- `variable_replacer.py` class VariableReplacer: defines all three
interface methods. -/
def variableReplacerSig : OperatorSig := ⟨"VariableReplacer", true, true, true⟩

/-- `remove_decorator.py` class RemoveDecorator: defines `mutate` only; in
place of `mutation_positions` it implements the older visitor-style hook
`visit_FunctionDef`, and it defines no `examples` collection. -/
def removeDecoratorSig : OperatorSig := ⟨"RemoveDecorator", false, true, false⟩

/-- The operator classes found in the repository. -/
def operator_catalog : List OperatorSig :=
  [noOpSig, zeroIterationForLoopSig, variableInserterSig,
   variableReplacerSig, removeDecoratorSig]

/-! ### Concrete sample data used by the closed witness theorems -/

/-- A `mutate_and_test` instance that always reports a COMPLETE, surviving
outcome. -/
def matPass : MutateAndTest := fun _ _ _ =>
  { outcome := { survived := true, output := "", duration := 1, exit_code := 0 },
    status := .complete }

/-- A `mutate_and_test` instance that always reports an ERRORED outcome
(a contained per-WorkItem failure, e.g. a mutation that no longer applies). -/
def matFail : MutateAndTest := fun _ _ _ =>
  { outcome := { survived := false, output := "boom", duration := 1, exit_code := 1 },
    status := .errored }

/-- Two pending WorkItems with distinct job ids. -/
def samplePending : List WorkItem := [⟨"job1", []⟩, ⟨"job2", []⟩]

/-- A test-suite model whose every run exceeds a timeout of 9. -/
def runsSlow : String → TestRun := fun _ => ⟨false, "", 99, 1⟩

/-- The iterable child (`children[3]`) of the sample for-loop below. -/
def sampleIterable : PNode := .leaf "name" " " "xs" (1, 8) (1, 11)

/-- The children of the parso tree of "for i in xs: pass". -/
def sampleForChildren : List PNode :=
  [.leaf "keyword" "" "for" (1, 0) (1, 3),
   .leaf "name" " " "i" (1, 3) (1, 5),
   .leaf "keyword" " " "in" (1, 5) (1, 8),
   sampleIterable,
   .leaf "operator" "" ":" (1, 11) (1, 12),
   .node "simple_stmt" [.leaf "keyword" " " "pass" (1, 12) (1, 17),
                        .leaf "newline" "" "\n" (1, 17) (2, 0)] (1, 12) (2, 0)]

/-- A leaf artifact used by the NoOp witness. -/
def sampleLeaf : PNode := .leaf "name" "" "x" (1, 0) (1, 1)

/-- A FunctionDef with two non-standard decorators around a regular one. -/
def sampleFunctionDef : FunctionDef :=
  ⟨"f", [⟨"foo"⟩, ⟨"classmethod"⟩, ⟨"bar"⟩]⟩

/-! ### Helper lemmas about the distributor loop -/

theorem processItem_ok (mat : MutateAndTest) (test_command : String)
    (timeout : Nat) (w : WorkItem) (n_tests : String)
    (hwf : nTestsOf test_command = some n_tests) :
    processItem mat test_command timeout w =
      .ok (w.job_id,
        mat w.mutations (test_command ++ outputArg n_tests w.job_id) timeout) := by
  unfold nTestsOf at hwf
  unfold processItem
  cases h : list_index (shlex_split test_command) "-t" with
  | none => simp [h] at hwf
  | some i =>
    simp only [h] at hwf
    cases h2 : (shlex_split test_command)[i + 1]? with
    | none => simp [h2] at hwf
    | some nt =>
      simp only [h2, Option.some.injEq] at hwf
      subst hwf
      simp [h, h2]

theorem process_eq_map (mat : MutateAndTest) (pending_work : List WorkItem)
    (test_command : String) (timeout : Nat) (n_tests : String)
    (hwf : nTestsOf test_command = some n_tests) :
    process mat pending_work test_command timeout =
      (pending_work.map (fun w =>
        (w.job_id,
         mat w.mutations (test_command ++ outputArg n_tests w.job_id) timeout)),
       none) := by
  induction pending_work with
  | nil => rfl
  | cons w rest ih =>
    simp only [process, processItem_ok mat test_command timeout w n_tests hwf,
      ih, List.map_cons]

/-! ### C1, C3, C4: callback-delivery contract of the local distributor -/

/-- C1: over any sequence of WorkItems with (as the spec's data model requires)
pairwise-distinct job ids and a well-formed test command, the local
distributor's run raises nothing, invokes `on_task_complete` exactly once for
each submitted job_id and never for any other job_id, and every invocation
carries the terminal `WorkResult` that `mutate_and_test` produced for exactly
that WorkItem — the callback therefore never fires before its item's result
exists. -/
theorem on_task_complete_exactly_once
    (mat : MutateAndTest) (pending_work : List WorkItem) (test_command : String)
    (timeout : Nat) (n_tests : String)
    (hwf : nTestsOf test_command = some n_tests)
    (hnodup : (pending_work.map WorkItem.job_id).Nodup) :
    (process mat pending_work test_command timeout).2 = none ∧
    (∀ j ∈ pending_work.map WorkItem.job_id,
      ((process mat pending_work test_command timeout).1.map Prod.fst).count j = 1) ∧
    (∀ j, j ∉ pending_work.map WorkItem.job_id →
      ((process mat pending_work test_command timeout).1.map Prod.fst).count j = 0) ∧
    (∀ ev ∈ (process mat pending_work test_command timeout).1,
      ∃ w ∈ pending_work,
        ev = (w.job_id,
          mat w.mutations (test_command ++ outputArg n_tests w.job_id) timeout)) := by
  rw [process_eq_map mat pending_work test_command timeout n_tests hwf]
  have hfst :
      ((pending_work.map (fun w =>
        (w.job_id,
         mat w.mutations (test_command ++ outputArg n_tests w.job_id) timeout))).map
          Prod.fst) = pending_work.map WorkItem.job_id := by
    simp [List.map_map, Function.comp]
  refine ⟨rfl, ?_, ?_, ?_⟩
  · intro j hj
    rw [hfst]
    exact List.count_eq_one_of_mem hnodup hj
  · intro j hj
    rw [hfst]
    exact List.count_eq_zero.mpr hj
  · intro ev hev
    rcases List.mem_map.mp hev with ⟨w, hw, hweq⟩
    exact ⟨w, hw, hweq.symm⟩

/-- C1 witness: the contract at a concrete run of two jobs. -/
theorem on_task_complete_exactly_once_witness :
    nTestsOf "pytest -t 5" = some "5" ∧
    (samplePending.map WorkItem.job_id).Nodup ∧
    ((process matPass samplePending "pytest -t 5" 9).2 = none ∧
     (∀ j ∈ samplePending.map WorkItem.job_id,
       ((process matPass samplePending "pytest -t 5" 9).1.map Prod.fst).count j = 1) ∧
     (∀ j, j ∉ samplePending.map WorkItem.job_id →
       ((process matPass samplePending "pytest -t 5" 9).1.map Prod.fst).count j = 0) ∧
     (∀ ev ∈ (process matPass samplePending "pytest -t 5" 9).1,
       ∃ w ∈ samplePending,
         ev = (w.job_id,
           matPass w.mutations ("pytest -t 5" ++ outputArg "5" w.job_id) 9))) :=
  ⟨by decide, by decide,
   on_task_complete_exactly_once matPass samplePending "pytest -t 5" 9 "5"
     (by decide) (by decide)⟩

/-- C3: a failure while processing one WorkItem — `mutate_and_test` reporting
an ERRORED terminal result for that item — does not abort the run: no
exception escapes the loop, every WorkItem of the sequence (the later ones
included) still contributes its own `on_task_complete` event, and the failing
item's errored result is recorded as that item's event only.
(`mutate_and_test` itself is not among the sources; per the spec's containment
policy it is modelled as total, so `mat` ranges over all total functions.) -/
theorem per_work_item_failure_contained
    (mat : MutateAndTest) (pending_work : List WorkItem) (test_command : String)
    (timeout : Nat) (n_tests : String) (w : WorkItem)
    (hwf : nTestsOf test_command = some n_tests)
    (hw : w ∈ pending_work)
    (hfail : (mat w.mutations (test_command ++ outputArg n_tests w.job_id)
        timeout).status = .errored) :
    (process mat pending_work test_command timeout).2 = none ∧
    (process mat pending_work test_command timeout).1 =
      pending_work.map (fun v =>
        (v.job_id,
         mat v.mutations (test_command ++ outputArg n_tests v.job_id) timeout)) ∧
    (w.job_id, mat w.mutations (test_command ++ outputArg n_tests w.job_id) timeout)
      ∈ (process mat pending_work test_command timeout).1 := by
  rw [process_eq_map mat pending_work test_command timeout n_tests hwf]
  exact ⟨rfl, rfl, List.mem_map.mpr ⟨w, hw, rfl⟩⟩

/-- C3 witness: a run in which every `mutate_and_test` call reports ERRORED
still delivers one callback per item. -/
theorem per_work_item_failure_contained_witness :
    nTestsOf "pytest -t 5" = some "5" ∧
    (⟨"job1", []⟩ : WorkItem) ∈ samplePending ∧
    (matFail [] ("pytest -t 5" ++ outputArg "5" "job1") 9).status = .errored ∧
    ((process matFail samplePending "pytest -t 5" 9).2 = none ∧
     (process matFail samplePending "pytest -t 5" 9).1 =
       samplePending.map (fun v =>
         (v.job_id, matFail v.mutations ("pytest -t 5" ++ outputArg "5" v.job_id) 9)) ∧
     ("job1", matFail [] ("pytest -t 5" ++ outputArg "5" "job1") 9)
       ∈ (process matFail samplePending "pytest -t 5" 9).1) :=
  ⟨by decide, by decide, by decide,
   per_work_item_failure_contained matFail samplePending "pytest -t 5" 9 "5"
     ⟨"job1", []⟩ (by decide) (by decide) (by decide)⟩

/-- C4: the local distributor handles WorkItems strictly sequentially — the
loop embedding only starts an item after the previous item's
`mutate_and_test` result exists — so with a well-formed test command the
sequence of `on_task_complete` invocations is exactly the submission order of
job ids. -/
theorem sequential_callback_order
    (mat : MutateAndTest) (pending_work : List WorkItem) (test_command : String)
    (timeout : Nat) (n_tests : String)
    (hwf : nTestsOf test_command = some n_tests) :
    ((process mat pending_work test_command timeout).1).map Prod.fst =
      pending_work.map WorkItem.job_id ∧
    (process mat pending_work test_command timeout).2 = none := by
  rw [process_eq_map mat pending_work test_command timeout n_tests hwf]
  constructor
  · simp [List.map_map, Function.comp]
  · rfl

/-- C4 witness: the callback order at a concrete two-job run. -/
theorem sequential_callback_order_witness :
    nTestsOf "pytest -t 5" = some "5" ∧
    (((process matPass samplePending "pytest -t 5" 9).1).map Prod.fst =
       samplePending.map WorkItem.job_id ∧
     (process matPass samplePending "pytest -t 5" 9).2 = none) :=
  ⟨by decide,
   sequential_callback_order matPass samplePending "pytest -t 5" 9 "5" (by decide)⟩

/-! ### C2: malformed test command -/

/-- C2 counterexample: the claim says a malformed test command (no `-t`
token) makes the run "fail fast with a configuration error" for every such
command, but the command is only parsed inside the per-item loop body: with
the malformed command "pytest" and an empty pending sequence the run
completes normally — no error of any kind is raised. -/
theorem malformed_command_empty_run_no_error :
    list_index (shlex_split "pytest") "-t" = none ∧
    nTestsOf "pytest" = none ∧
    process matPass [] "pytest" 9 = ([], none) := by
  refine ⟨by decide, by decide, rfl⟩

/-- C2 amended: when at least one WorkItem is pending, a test command with no
`-t` token makes the run raise ValueError while parsing the command for the
first item, before any `mutate_and_test` call: the event trace is empty (no
mutation is applied, no test execution starts, no callback fires) and the
error aborts the run. -/
theorem malformed_command_fails_before_dispatch
    (mat : MutateAndTest) (pending_work : List WorkItem) (test_command : String)
    (timeout : Nat)
    (hmal : list_index (shlex_split test_command) "-t" = none)
    (hne : pending_work ≠ []) :
    process mat pending_work test_command timeout = ([], some .valueError) := by
  cases pending_work with
  | nil => exact absurd rfl hne
  | cons w rest =>
    unfold process processItem
    simp [hmal]

/-- C2 amended witness: the malformed command "pytest" with two pending jobs. -/
theorem malformed_command_fails_before_dispatch_witness :
    list_index (shlex_split "pytest") "-t" = none ∧
    samplePending ≠ [] ∧
    process matPass samplePending "pytest" 9 = ([], some .valueError) :=
  ⟨by decide, by decide,
   malformed_command_fails_before_dispatch matPass samplePending "pytest" 9
     (by decide) (by decide)⟩

/-! ### C5: per-job output paths never collide -/

theorem string_append_cancel_left (s a b : String) (h : s ++ a = s ++ b) :
    a = b := by
  have hd := congrArg String.data h
  simp only [String.data_append] at hd
  have h1 := List.append_cancel_left hd
  cases a; cases b; simp_all

theorem string_append_cancel_middle (s t a b : String)
    (h : s ++ a ++ t = s ++ b ++ t) : a = b := by
  have hd := congrArg String.data h
  simp only [String.data_append] at hd
  have h1 := List.append_cancel_right hd
  have h2 := List.append_cancel_left h1
  cases a; cases b; simp_all

/-- C5: the `-o` argument appended per invocation
(`f" -o t{n_tests}/{work_item.job_id}.json"`) is injective in the job_id for
a fixed test command, so two WorkItems with distinct job ids always get
distinct output paths and distinct rewritten test commands; and with a
well-formed command every WorkItem really is dispatched with exactly that
rewritten command. -/
theorem output_arg_injective
    (test_command n_tests a b : String)
    (hwf : nTestsOf test_command = some n_tests)
    (hab : a ≠ b) :
    outputArg n_tests a ≠ outputArg n_tests b ∧
    test_command ++ outputArg n_tests a ≠ test_command ++ outputArg n_tests b ∧
    ∀ (mat : MutateAndTest) (timeout : Nat) (w : WorkItem),
      processItem mat test_command timeout w =
        .ok (w.job_id,
          mat w.mutations (test_command ++ outputArg n_tests w.job_id) timeout) := by
  refine ⟨?_, ?_, ?_⟩
  · intro h
    exact hab (string_append_cancel_middle (" -o t" ++ n_tests ++ "/") ".json" a b h)
  · intro h
    have h1 := string_append_cancel_left test_command _ _ h
    exact hab (string_append_cancel_middle (" -o t" ++ n_tests ++ "/") ".json" a b h1)
  · intro mat timeout w
    exact processItem_ok mat test_command timeout w n_tests hwf

/-- C5 witness: distinct jobs "job1" and "job2" under the command
"pytest -t 5". -/
theorem output_arg_injective_witness :
    nTestsOf "pytest -t 5" = some "5" ∧
    ("job1" : String) ≠ "job2" ∧
    (outputArg "5" "job1" ≠ outputArg "5" "job2" ∧
     "pytest -t 5" ++ outputArg "5" "job1" ≠ "pytest -t 5" ++ outputArg "5" "job2" ∧
     ∀ (mat : MutateAndTest) (timeout : Nat) (w : WorkItem),
       processItem mat "pytest -t 5" timeout w =
         .ok (w.job_id,
           mat w.mutations ("pytest -t 5" ++ outputArg "5" w.job_id) timeout)) :=
  ⟨by decide, by decide,
   output_arg_injective "pytest -t 5" "5" "job1" "job2" (by decide) (by decide)⟩

/-! ### C8: timed-out mutants are recorded as survived and the run continues -/

/-- C8: with the scheduler driven by the spec-modelled executor, a WorkItem
whose test run exceeds the configured timeout is delivered to
`on_task_complete` with status TIMED_OUT and `survived = true`, and the run
is not aborted: no exception escapes and every WorkItem of the sequence still
contributes its own event. -/
theorem timed_out_mutant_survives
    (runs : String → TestRun) (pending_work : List WorkItem)
    (test_command : String) (timeout : Nat) (n_tests : String)
    (hwf : nTestsOf test_command = some n_tests) :
    (process (fun _ cmd t => executeTest (runs cmd) t)
       pending_work test_command timeout).2 = none ∧
    ∀ w ∈ pending_work,
      ((w.job_id, executeTest (runs (test_command ++ outputArg n_tests w.job_id)) timeout)
         ∈ (process (fun _ cmd t => executeTest (runs cmd) t)
              pending_work test_command timeout).1) ∧
      (timeout < (runs (test_command ++ outputArg n_tests w.job_id)).duration →
        (executeTest (runs (test_command ++ outputArg n_tests w.job_id))
            timeout).status = .timedOut ∧
        (executeTest (runs (test_command ++ outputArg n_tests w.job_id))
            timeout).outcome.survived = true) := by
  rw [process_eq_map (fun _ cmd t => executeTest (runs cmd) t)
    pending_work test_command timeout n_tests hwf]
  refine ⟨rfl, ?_⟩
  intro w hw
  refine ⟨List.mem_map.mpr ⟨w, hw, rfl⟩, ?_⟩
  intro hslow
  constructor <;> simp [executeTest, hslow]

/-- C8 witness: a concrete run in which every test execution takes 99 units
against a timeout of 9. -/
theorem timed_out_mutant_survives_witness :
    nTestsOf "pytest -t 5" = some "5" ∧
    ((process (fun _ cmd t => executeTest (runsSlow cmd) t)
        samplePending "pytest -t 5" 9).2 = none ∧
     ∀ w ∈ samplePending,
       ((w.job_id, executeTest (runsSlow ("pytest -t 5" ++ outputArg "5" w.job_id)) 9)
          ∈ (process (fun _ cmd t => executeTest (runsSlow cmd) t)
               samplePending "pytest -t 5" 9).1) ∧
       (9 < (runsSlow ("pytest -t 5" ++ outputArg "5" w.job_id)).duration →
         (executeTest (runsSlow ("pytest -t 5" ++ outputArg "5" w.job_id))
             9).status = .timedOut ∧
         (executeTest (runsSlow ("pytest -t 5" ++ outputArg "5" w.job_id))
             9).outcome.survived = true)) :=
  ⟨by decide,
   timed_out_mutant_survives runsSlow samplePending "pytest -t 5" 9 "5" (by decide)⟩

/-! ### C6: the no-op operator -/

/-- C6: `NoOp.mutate` is the identity on every node and every variant index,
so the mutated artifact is the original; consequently, under the
spec-modelled executor, a test suite that passes on the artifact within the
timeout yields a COMPLETE result with `survived = true` — the no-op mutant
survives. -/
theorem noop_mutate_identity
    (runs : PNode → TestRun) (node : PNode) (index timeout : Nat)
    (hpass : (runs node).passed = true)
    (hfits : (runs node).duration ≤ timeout) :
    NoOp.mutate node index = node ∧
    (executeTest (runs (NoOp.mutate node index)) timeout).outcome.survived = true ∧
    (executeTest (runs (NoOp.mutate node index)) timeout).status = .complete := by
  refine ⟨rfl, ?_, ?_⟩ <;>
    simp [NoOp.mutate, executeTest, Nat.not_lt.mpr hfits, hpass]

/-- C6 witness: the identity and survival at a concrete artifact and a
concrete passing suite. -/
theorem noop_mutate_identity_witness :
    ((fun _ : PNode => (⟨true, "ok", 1, 0⟩ : TestRun)) sampleLeaf).passed = true ∧
    ((fun _ : PNode => (⟨true, "ok", 1, 0⟩ : TestRun)) sampleLeaf).duration ≤ 9 ∧
    (NoOp.mutate sampleLeaf 0 = sampleLeaf ∧
     (executeTest ((fun _ : PNode => (⟨true, "ok", 1, 0⟩ : TestRun))
         (NoOp.mutate sampleLeaf 0)) 9).outcome.survived = true ∧
     (executeTest ((fun _ : PNode => (⟨true, "ok", 1, 0⟩ : TestRun))
         (NoOp.mutate sampleLeaf 0)) 9).status = .complete) :=
  ⟨by decide, by decide,
   noop_mutate_identity (fun _ => ⟨true, "ok", 1, 0⟩) sampleLeaf 0 9
     (by decide) (by decide)⟩

/-! ### C9: the zero-iteration-for-loop operator -/

/-- C9: on a ForStmt node, `mutation_positions` yields exactly one site — the
span of `children[3]`, the loop's iterable — and yields nothing on any
non-ForStmt node; `mutate` with index 0 replaces `children[3]` with the
parsed empty-list expression " []" and leaves every other child (the loop
keyword, target, body, ...) and the node's type and span unchanged. -/
theorem zero_iteration_for_loop_spec
    (children : List PNode) (s e : Nat × Nat) (expr : PNode)
    (hexpr : children[3]? = some expr) :
    ZeroIterationForLoop.mutation_positions (.node "for_stmt" children s e) =
      some [(expr.start_pos, expr.end_pos)] ∧
    (∀ n : PNode, n.type ≠ "for_stmt" →
      ZeroIterationForLoop.mutation_positions n = some []) ∧
    ZeroIterationForLoop.mutate (.node "for_stmt" children s e) 0 =
      some (.node "for_stmt" (children.set 3 ZeroIterationForLoop.empty_list) s e) ∧
    (children.set 3 ZeroIterationForLoop.empty_list)[3]? =
      some ZeroIterationForLoop.empty_list ∧
    (∀ i, i ≠ 3 →
      (children.set 3 ZeroIterationForLoop.empty_list)[i]? = children[i]?) ∧
    ZeroIterationForLoop.empty_list.get_code = " []" := by
  have h3 : 3 < children.length := (List.getElem?_eq_some.mp hexpr).1
  refine ⟨?_, ?_, ?_, ?_, ?_, rfl⟩
  · simp [ZeroIterationForLoop.mutation_positions, hexpr]
  · intro n hn
    cases n with
    | leaf t p v s2 e2 => rfl
    | node t cs s2 e2 =>
      have ht : t ≠ "for_stmt" := hn
      unfold ZeroIterationForLoop.mutation_positions
      split
      · next heq => injection heq with h1 _; exact absurd h1 ht
      · rfl
  · simp [ZeroIterationForLoop.mutate, h3]
  · exact List.getElem?_set_self h3
  · intro i hi
    exact List.getElem?_set_ne (Ne.symm hi)

/-- C9 witness: the operator at the parso tree of "for i in xs: pass". -/
theorem zero_iteration_for_loop_spec_witness :
    sampleForChildren[3]? = some sampleIterable ∧
    (ZeroIterationForLoop.mutation_positions
        (.node "for_stmt" sampleForChildren (1, 0) (2, 0)) =
      some [(sampleIterable.start_pos, sampleIterable.end_pos)] ∧
     (∀ n : PNode, n.type ≠ "for_stmt" →
       ZeroIterationForLoop.mutation_positions n = some []) ∧
     ZeroIterationForLoop.mutate (.node "for_stmt" sampleForChildren (1, 0) (2, 0)) 0 =
       some (.node "for_stmt"
         (sampleForChildren.set 3 ZeroIterationForLoop.empty_list) (1, 0) (2, 0)) ∧
     (sampleForChildren.set 3 ZeroIterationForLoop.empty_list)[3]? =
       some ZeroIterationForLoop.empty_list ∧
     (∀ i, i ≠ 3 →
       (sampleForChildren.set 3 ZeroIterationForLoop.empty_list)[i]? =
         sampleForChildren[i]?) ∧
     ZeroIterationForLoop.empty_list.get_code = " []") :=
  ⟨rfl, zero_iteration_for_loop_spec sampleForChildren (1, 0) (2, 0)
     sampleIterable rfl⟩

/-! ### C10: the remove-decorator operator -/

/-- A list splits, lengthwise, into the part satisfying a predicate and the
part refuting it. -/
theorem length_filter_partition {α : Type} (p : α → Bool) (l : List α) :
    (l.filter (fun x => p x)).length + (l.filter (fun x => !(p x))).length =
      l.length := by
  induction l with
  | nil => rfl
  | cons a l ih =>
    by_cases h : p a = true <;> simp [List.filter_cons, h] <;> omega

/-- C10: on a FunctionDef whose decorator list holds `n ≥ 1` non-standard
decorators (ids outside classmethod/staticmethod/abstractmethod), and any
`idx < n`, `RemoveDecorator.mutate` returns the node with a decorator list
exactly one element shorter in which the idx-th non-standard decorator has
been removed, every regular decorator is preserved (same ones, same relative
order), and the regular decorators all follow the surviving non-standard
ones. -/
theorem remove_decorator_mutate_spec
    (node : FunctionDef) (idx n : Nat)
    (hn : (node.decorator_list.filter
      (fun x => !(RemoveDecorator.isRegular x))).length = n)
    (hpos : 1 ≤ n) (hidx : idx < n) :
    ∃ m, RemoveDecorator.mutate node idx = some m ∧
      m.decorator_list.length + 1 = node.decorator_list.length ∧
      m.decorator_list =
        (node.decorator_list.filter
          (fun x => !(RemoveDecorator.isRegular x))).eraseIdx idx ++
          node.decorator_list.filter (fun x => RemoveDecorator.isRegular x) ∧
      m.decorator_list.filter (fun x => RemoveDecorator.isRegular x) =
        node.decorator_list.filter (fun x => RemoveDecorator.isRegular x) ∧
      m.decorator_list.filter (fun x => !(RemoveDecorator.isRegular x)) =
        (node.decorator_list.filter
          (fun x => !(RemoveDecorator.isRegular x))).eraseIdx idx ∧
      m.name = node.name := by
  have hlt : idx <
      (node.decorator_list.filter (fun x => !(RemoveDecorator.isRegular x))).length := by
    omega
  have hmem_cand : ∀ x ∈ (node.decorator_list.filter
      (fun x => !(RemoveDecorator.isRegular x))).eraseIdx idx,
      RemoveDecorator.isRegular x = false := by
    intro x hx
    have hx2 := (List.eraseIdx_sublist
      (node.decorator_list.filter (fun x => !(RemoveDecorator.isRegular x))) idx).subset hx
    have := (List.mem_filter.mp hx2).2
    simpa using this
  have hmem_reg : ∀ x ∈ node.decorator_list.filter
      (fun x => RemoveDecorator.isRegular x), RemoveDecorator.isRegular x = true := by
    intro x hx
    exact (List.mem_filter.mp hx).2
  refine ⟨{ node with decorator_list :=
      (node.decorator_list.filter
        (fun x => !(RemoveDecorator.isRegular x))).eraseIdx idx ++
        node.decorator_list.filter (fun x => RemoveDecorator.isRegular x) },
    ?_, ?_, rfl, ?_, ?_, rfl⟩
  · unfold RemoveDecorator.mutate
    simp [hlt]
  · have hpart := length_filter_partition RemoveDecorator.isRegular node.decorator_list
    have hlen := List.length_eraseIdx_of_lt hlt
    simp only [List.length_append, hlen]
    omega
  · have h1 : List.filter (fun x => RemoveDecorator.isRegular x)
        ((node.decorator_list.filter
          (fun x => !(RemoveDecorator.isRegular x))).eraseIdx idx) = [] :=
      List.filter_eq_nil_iff.mpr (by intro a ha; simp [hmem_cand a ha])
    have h2 : List.filter (fun x => RemoveDecorator.isRegular x)
        (node.decorator_list.filter (fun x => RemoveDecorator.isRegular x)) =
        node.decorator_list.filter (fun x => RemoveDecorator.isRegular x) :=
      List.filter_eq_self.mpr (by intro a ha; exact hmem_reg a ha)
    simp only [List.filter_append, h1, h2, List.nil_append]
  · have h1 : List.filter (fun x => !(RemoveDecorator.isRegular x))
        ((node.decorator_list.filter
          (fun x => !(RemoveDecorator.isRegular x))).eraseIdx idx) =
        (node.decorator_list.filter
          (fun x => !(RemoveDecorator.isRegular x))).eraseIdx idx :=
      List.filter_eq_self.mpr (by intro a ha; simp [hmem_cand a ha])
    have h2 : List.filter (fun x => !(RemoveDecorator.isRegular x))
        (node.decorator_list.filter (fun x => RemoveDecorator.isRegular x)) = [] :=
      List.filter_eq_nil_iff.mpr (by intro a ha; simp [hmem_reg a ha])
    simp only [List.filter_append, h1, h2, List.append_nil]

/-- C10 witness: removing the second non-standard decorator of
`@foo @classmethod @bar def f`. -/
theorem remove_decorator_mutate_spec_witness :
    (sampleFunctionDef.decorator_list.filter
      (fun x => !(RemoveDecorator.isRegular x))).length = 2 ∧
    1 ≤ 2 ∧ 1 < 2 ∧
    (∃ m, RemoveDecorator.mutate sampleFunctionDef 1 = some m ∧
      m.decorator_list.length + 1 = sampleFunctionDef.decorator_list.length ∧
      m.decorator_list =
        (sampleFunctionDef.decorator_list.filter
          (fun x => !(RemoveDecorator.isRegular x))).eraseIdx 1 ++
          sampleFunctionDef.decorator_list.filter
            (fun x => RemoveDecorator.isRegular x) ∧
      m.decorator_list.filter (fun x => RemoveDecorator.isRegular x) =
        sampleFunctionDef.decorator_list.filter
          (fun x => RemoveDecorator.isRegular x) ∧
      m.decorator_list.filter (fun x => !(RemoveDecorator.isRegular x)) =
        (sampleFunctionDef.decorator_list.filter
          (fun x => !(RemoveDecorator.isRegular x))).eraseIdx 1 ∧
      m.name = sampleFunctionDef.name) :=
  ⟨by decide, by decide, by decide,
   remove_decorator_mutate_spec sampleFunctionDef 1 2 (by decide) (by decide)
     (by decide)⟩

/-! ### C7: the operator interface across the catalog -/

/-- C7 counterexample: not every operator class in the repository exposes the
full `mutation_positions` / `mutate` / `examples` interface — RemoveDecorator
is in the catalog yet defines neither `mutation_positions` nor `examples`. -/
theorem operator_interface_counterexample :
    removeDecoratorSig ∈ operator_catalog ∧
    removeDecoratorSig.defines_mutation_positions = false ∧
    removeDecoratorSig.defines_examples = false ∧
    ¬ (∀ op ∈ operator_catalog,
        op.defines_mutation_positions = true ∧ op.defines_mutate = true ∧
        op.defines_examples = true) := by
  decide

/-- C7 amended: every operator class in the catalog defines `mutate`, and
every one except the visitor-style RemoveDecorator also defines
`mutation_positions` and a class-level `examples` collection. -/
theorem operator_interface_amended :
    ∀ op ∈ operator_catalog,
      op.defines_mutate = true ∧
      (op.name ≠ "RemoveDecorator" →
        op.defines_mutation_positions = true ∧ op.defines_examples = true) := by
  decide

/-- C7 amended witness: the interface of the NoOp operator. -/
theorem operator_interface_amended_witness :
    noOpSig.defines_mutate = true ∧
    (noOpSig.name ≠ "RemoveDecorator" →
      noOpSig.defines_mutation_positions = true ∧
      noOpSig.defines_examples = true) :=
  operator_interface_amended noOpSig (by decide)

end CosmicRay
